import Mathlib

/-!
Shallow embedding of `snips_nlu/slot_filler/feature_factory.py` (the CRF
feature-factory core of snips-nlu) together with the interface types it
consumes, and proofs settling the frozen claims about that file.

Conventions of the embedding:
* Python `None` feature values are `Option.none` in an `Option String`.
* A compute function that can hit a Python exception (IndexError/KeyError)
  has result type `Option (Option String)`: the outer `none` is "raises",
  `some v` is a normal return of the value `v`.
* Python dicts used as argument mappings are association lists with
  first-key-wins lookup and in-place update.
* External collaborators (normalization, stemming, resources, parsers) are
  fields of an explicit `Ext` record or parser records, exactly at the
  interface boundary the spec declares for them.
-/

namespace SnipsNLU

/-- Values that can appear in a factory configuration's `args` mapping. -/
inductive Val where
  | vstr (s : String)
  | vint (n : Int)
  | vbool (b : Bool)
  | vlist (l : List String)
  | vnone
deriving DecidableEq, Repr

/-- Lookup of a key in a Python-dict-like association list. -/
def argLookup : List (String × Val) → String → Option Val
  | [], _ => none
  | (k', v) :: rest, k => if k' = k then some v else argLookup rest k

/-- In-place dict update `args[k] = v`: replaces the first binding of `k`,
appends a new binding when `k` is absent. -/
def setArg : List (String × Val) → String → Val → List (String × Val)
  | [], k, v => [(k, v)]
  | (k', v') :: rest, k, v =>
      if k' = k then (k, v) :: rest else (k', v') :: setArg rest k v

/-- A factory configuration: `factory_name`, `args`, `offsets`, `drop_out`
(the latter read with default 0.0 in the source). -/
structure FactoryConfig where
  factory_name : String
  args : List (String × Val)
  offsets : List Int
  drop_out : Rat
deriving DecidableEq, Repr

/-- Modelled from the spec: the `Token` class of `snips_nlu/preprocessing.py`
is not under src/. §3: `{value: string, start: int, end: int}`, character
offsets into the source text. -/
structure Token where
  value : String
  start : Nat
  «end» : Nat
deriving DecidableEq, Repr

/-- Modelled from the spec: parser results (`ent[RES_MATCH_RANGE][START]` /
`ent[RES_MATCH_RANGE][END]` in the source) carry a character range; §3 calls
this EntitySpan `{start: int, end: int}`. -/
structure EntitySpan where
  rstart : Nat
  rend : Nat
deriving DecidableEq, Repr

/-- Modelled from the spec: `TaggingScheme` of `slot_filler/crf_utils.py` is
not under src/. §3: a closed enumeration of labeling conventions fixed by an
integer code. -/
inductive TaggingScheme where
  | ioTag
  | bioTag
  | bilouTag
deriving DecidableEq, Repr

/-- Modelled from the spec: the `TaggingScheme(code)` conversion used by the
entity-match constructors; an integer code outside the enumeration is a
(fatal) validation error. -/
def taggingSchemeOfCode : Int → Except String TaggingScheme
  | 0 => Except.ok TaggingScheme.ioTag
  | 1 => Except.ok TaggingScheme.bioTag
  | 2 => Except.ok TaggingScheme.bilouTag
  | _ => Except.error "invalid tagging scheme code"

/-- Modelled from the spec: `get_scheme_prefix` of `slot_filler/crf_utils.py`
is not under src/. §4.5: pure function of `(token_index, matched token
indexes, scheme)`, classifying the index's position relative to the matched
block (single-token span, span start, span interior/end) and returning the
scheme's marker string. -/
def schemePrefixOf (index : Nat) (indexes : List Nat) (s : TaggingScheme) : String :=
  match s with
  | TaggingScheme.ioTag => "I-"
  | TaggingScheme.bioTag =>
      if indexes.head? = some index then "B-" else "I-"
  | TaggingScheme.bilouTag =>
      if indexes.length = 1 then "U-"
      else if indexes.head? = some index then "B-"
      else if indexes.getLast? = some index then "L-"
      else "I-"

/-- Modelled from the spec: `entity_filter` of
`slot_filler/features_utils.py` is not under src/. §4.4 spells its formula
out ("both the target token's start and end must fall within the matched
entity's character range"), and the same formula appears inline at lines
535-536 of the source file for the builtin token-collection test; §4.5
requires the classified index to lie within the matched block, which this
containment test guarantees. -/
def entity_filter (ent : EntitySpan) (s e : Nat) : Bool :=
  decide (ent.rstart ≤ s ∧ s < ent.rend) && decide (ent.rstart < e ∧ e ≤ ent.rend)

/-- Exact containment of a token's span in a matched entity's range, written
as one proposition (the test of source lines 535-536). -/
def entityContains (ent : EntitySpan) (t : Token) : Bool :=
  decide (ent.rstart ≤ t.start ∧ t.start < ent.rend ∧
          ent.rstart < t.«end» ∧ t.«end» ≤ ent.rend)

/-- Modelled from the spec: `initial_string_from_tokens` of
`slot_filler/features_utils.py` is not under src/. §4.3: reconstruct the
text by concatenating token values with single-space separators in order. -/
def initial_string_from_tokens (tokens : List Token) : String :=
  String.intercalate " " (tokens.map (fun t => t.value))

/-- Modelled from the spec: `get_word_chunk` of
`slot_filler/features_utils.py` is not under src/. §4.2: take the
leading/trailing chunk of the word; a word shorter than the chunk size is
returned whole. -/
def get_word_chunk (word : String) (chunkSize : Int) (chunkStart : Int)
    (reverse : Bool) : String :=
  if chunkSize > (word.length : Int) then word
  else if reverse then
    ((word.take chunkStart.toNat).drop (chunkStart - chunkSize).toNat)
  else ((word.drop chunkStart.toNat).take chunkSize.toNat)

/-- The training dataset, at the interface boundary this file consumes:
only `dataset[LANGUAGE]` is read directly; everything else is reached
through external collaborators. -/
structure Dataset where
  language : String
deriving DecidableEq, Repr

/-- External collaborators (§6), bundled: normalization, stemming, shapes,
separators, resource lookups and entity-scope helpers. The language argument
mirrors the Python `self.language`, which is `None` before fitting. -/
structure Ext where
  normalize : Token → String
  stem : Option String → Token → String
  shape : String → String
  sep : Option String → String
  gazetteer : String → String → List String
  word_clusters : Option String → String → List (String × String)
  grammar_entities : String → List String
  dataset_gazetteer_entities : Dataset → Option String → List String

/-- The custom entity parser collaborator: a set of recognizable labels and
a scoped parse (`use_cache` only affects performance, not results, per §5). -/
structure CustomParser where
  entities : List String
  parse : String → List String → List EntitySpan

/-- The builtin entity parser collaborator. -/
structure BuiltinParser where
  parse : String → List String → List EntitySpan

/-- A built CRF feature: base name, compute closure, offset, drop-out. -/
structure Feature where
  base_name : String
  func : List Token → Nat → Option (Option String)
  offset : Int
  drop_out : Rat

/-- Modelled from the spec: `Feature.compute` of `slot_filler/feature.py` is
not under src/. §4.2/§8: evaluation shifts the index by the feature's
offset and yields "no value" (without calling the wrapped function, hence
without any out-of-bounds failure) when the shifted index is outside
`[0, len(tokens))`. -/
def Feature.compute (f : Feature) (tokens : List Token) (tokenIndex : Nat) :
    Option (Option String) :=
  let shifted : Int := (tokenIndex : Int) + f.offset
  if 0 ≤ shifted ∧ shifted < (tokens.length : Int) then
    f.func tokens shifted.toNat
  else some none

/-- Required integer argument: `self.args[k]` with a KeyError on absence. -/
def getIntArg (args : List (String × Val)) (k : String) : Except String Int :=
  match argLookup args k with
  | some (Val.vint n) => Except.ok n
  | some _ => Except.error ("TypeError: " ++ k)
  | none => Except.error ("KeyError: " ++ k)

/-- Required boolean argument. -/
def getBoolArg (args : List (String × Val)) (k : String) : Except String Bool :=
  match argLookup args k with
  | some (Val.vbool b) => Except.ok b
  | some _ => Except.error ("TypeError: " ++ k)
  | none => Except.error ("KeyError: " ++ k)

/-- Required string argument. -/
def getStrArg (args : List (String × Val)) (k : String) : Except String String :=
  match argLookup args k with
  | some (Val.vstr s) => Except.ok s
  | some _ => Except.error ("TypeError: " ++ k)
  | none => Except.error ("KeyError: " ++ k)

/-- Required argument whose value is a string or `None`
(`common_words_gazetteer_name`). -/
def getStrOrNoneArg (args : List (String × Val)) (k : String) :
    Except String (Option String) :=
  match argLookup args k with
  | some (Val.vstr s) => Except.ok (some s)
  | some Val.vnone => Except.ok none
  | some _ => Except.error ("TypeError: " ++ k)
  | none => Except.error ("KeyError: " ++ k)

/-- Optional lookup `self.args.get("language_code")`. -/
def langOf (args : List (String × Val)) : Option String :=
  match argLookup args "language_code" with
  | some (Val.vstr s) => some s
  | _ => none

/-- Optional lookup `self.args.get("entity_labels")`. -/
def entityLabelsOf (args : List (String × Val)) : Option (List String) :=
  match argLookup args "entity_labels" with
  | some (Val.vlist l) => some l
  | _ => none

/-- Write `args["language_code"] = l` on a config (the side effect of every
language setter in the source). -/
def setLang (c : FactoryConfig) (l : String) : FactoryConfig :=
  { c with args := setArg c.args "language_code" (Val.vstr l) }

/-- State of a fitted or unfitted `NgramFactory` (source lines 177-256):
the config plus the fields cached by `__init__` and the language setter. -/
structure NgramFactory where
  factory_config : FactoryConfig
  n : Int
  use_stemming : Bool
  common_words_gazetteer_name : Option String
  gazetteer : Option (List String)
  language : Option String
deriving DecidableEq, Repr

/-- The body of the `NgramFactory.language` setter (source lines 212-219)
applied with a non-`None` value: cache the language, write it back into the
config's args, and resolve the gazetteer when one is named. -/
def ngramSetLanguage (E : Ext) (f : NgramFactory) (l : String) : NgramFactory :=
  { f with
    language := some l
    factory_config := setLang f.factory_config l
    gazetteer :=
      match f.common_words_gazetteer_name with
      | some name => some (E.gazetteer l name)
      | none => f.gazetteer }

/-- `NgramFactory.__init__` (source lines 195-206): read and validate the
args, then run the language setter when `language_code` is present. -/
def mkNgram (E : Ext) (c : FactoryConfig) : Except String NgramFactory :=
  match getIntArg c.args "n" with
  | Except.error e => Except.error e
  | Except.ok n =>
    if n < 1 then Except.error "n should be >= 1"
    else
      match getBoolArg c.args "use_stemming" with
      | Except.error e => Except.error e
      | Except.ok us =>
        match getStrOrNoneArg c.args "common_words_gazetteer_name" with
        | Except.error e => Except.error e
        | Except.ok gzName =>
          let f : NgramFactory :=
            { factory_config := c, n := n, use_stemming := us,
              common_words_gazetteer_name := gzName, gazetteer := none,
              language := none }
          match langOf c.args with
          | some l => Except.ok (ngramSetLanguage E f l)
          | none => Except.ok f

/-- `NgramFactory.fit` (source lines 225-226): assigns the language property
(no `return`, so the Python call evaluates to `None`). -/
def ngramFit (E : Ext) (f : NgramFactory) (d : Dataset) : NgramFactory :=
  ngramSetLanguage E f d.language

/-- `NgramFactory.compute_feature` (source lines 228-248). -/
def ngramCompute (E : Ext) (f : NgramFactory) (tokens : List Token)
    (tokenIndex : Nat) : Option (Option String) :=
  let maxLen : Int := tokens.length
  let endIdx : Int := (tokenIndex : Int) + f.n
  if (tokenIndex : Int) < maxLen ∧ endIdx ≤ maxLen then
    let window := (tokens.drop tokenIndex).take f.n.toNat
    match f.gazetteer with
    | none =>
      if f.use_stemming then
        some (some (String.intercalate (E.sep f.language)
          (window.map (fun t => E.stem f.language t))))
      else
        some (some (String.intercalate (E.sep f.language)
          (window.map (fun t => E.normalize t))))
    | some gaz =>
      let words := window.map (fun t =>
        let value := if f.use_stemming then E.stem f.language t
                     else E.normalize t
        if gaz.contains value then value else "rare_word")
      some (some (String.intercalate (E.sep f.language) words))
  else some none

/-- State of a `ShapeNgramFactory` (source lines 259-307). -/
structure ShapeNgramFactory where
  factory_config : FactoryConfig
  n : Int
  language : Option String
deriving DecidableEq, Repr

/-- The `ShapeNgramFactory.language` setter (source lines 288-292) with a
non-`None` value. -/
def shapeSetLanguage (f : ShapeNgramFactory) (l : String) : ShapeNgramFactory :=
  { f with language := some l, factory_config := setLang f.factory_config l }

/-- `ShapeNgramFactory.__init__` (source lines 276-282). -/
def mkShapeNgram (c : FactoryConfig) : Except String ShapeNgramFactory :=
  match getIntArg c.args "n" with
  | Except.error e => Except.error e
  | Except.ok n =>
    if n < 1 then Except.error "n should be >= 1"
    else
      let f : ShapeNgramFactory :=
        { factory_config := c, n := n, language := none }
      match langOf c.args with
      | some l => Except.ok (shapeSetLanguage f l)
      | none => Except.ok f

/-- `ShapeNgramFactory.fit` (source lines 298-299; no `return`). -/
def shapeNgramFit (f : ShapeNgramFactory) (d : Dataset) : ShapeNgramFactory :=
  shapeSetLanguage f d.language

/-- `ShapeNgramFactory.compute_feature` (source lines 301-307). -/
def shapeNgramCompute (E : Ext) (f : ShapeNgramFactory) (tokens : List Token)
    (tokenIndex : Nat) : Option (Option String) :=
  let maxLen : Int := tokens.length
  let endIdx : Int := (tokenIndex : Int) + f.n
  if (tokenIndex : Int) < maxLen ∧ endIdx ≤ maxLen then
    some (some (String.intercalate (E.sep f.language)
      (((tokens.drop tokenIndex).take f.n.toNat).map (fun t => E.shape t.value))))
  else some none

/-- State of a `WordClusterFactory` (source lines 310-364). -/
structure WordClusterFactory where
  factory_config : FactoryConfig
  cluster_name : String
  cluster : Option (List (String × String))
  language : Option String
  use_stemming : Bool
deriving DecidableEq, Repr

/-- The `WordClusterFactory.language` setter (source lines 342-347) with a
non-`None` value: caches the named cluster table for the language. -/
def wordClusterSetLanguage (E : Ext) (f : WordClusterFactory) (l : String) :
    WordClusterFactory :=
  { f with language := some l,
           cluster := some (E.word_clusters (some l) f.cluster_name),
           factory_config := setLang f.factory_config l }

/-- `WordClusterFactory.__init__` (source lines 326-332). -/
def mkWordCluster (E : Ext) (c : FactoryConfig) :
    Except String WordClusterFactory :=
  match getStrArg c.args "cluster_name" with
  | Except.error e => Except.error e
  | Except.ok cn =>
    match getBoolArg c.args "use_stemming" with
    | Except.error e => Except.error e
    | Except.ok us =>
      let f : WordClusterFactory :=
        { factory_config := c, cluster_name := cn, cluster := none,
          language := none, use_stemming := us }
      match langOf c.args with
      | some l => Except.ok (wordClusterSetLanguage E f l)
      | none => Except.ok f

/-- `WordClusterFactory.fit` (source lines 349-350; no `return`). -/
def wordClusterFit (E : Ext) (f : WordClusterFactory) (d : Dataset) :
    WordClusterFactory :=
  wordClusterSetLanguage E f d.language

/-- `WordClusterFactory.compute_feature` (source lines 352-358): note the
source re-reads the cluster table from resources rather than using the
cached `self.cluster`. -/
def wordClusterCompute (E : Ext) (f : WordClusterFactory) (tokens : List Token)
    (tokenIndex : Nat) : Option (Option String) :=
  (tokens.get? tokenIndex).map (fun t =>
    let value := if f.use_stemming then E.stem f.language t else E.normalize t
    (E.word_clusters f.language f.cluster_name).lookup value)

/-- State of an `EntityMatchFactory` (source lines 367-462). -/
structure EntityMatchFactory where
  factory_config : FactoryConfig
  use_stemming : Bool
  tagging_scheme : TaggingScheme
  language : Option String
deriving DecidableEq, Repr

/-- The `EntityMatchFactory.language` setter (source lines 396-400) with a
non-`None` value. -/
def emSetLanguage (f : EntityMatchFactory) (l : String) : EntityMatchFactory :=
  { f with language := some l, factory_config := setLang f.factory_config l }

/-- `EntityMatchFactory.__init__` (source lines 384-390). -/
def mkEntityMatch (c : FactoryConfig) : Except String EntityMatchFactory :=
  match getBoolArg c.args "use_stemming" with
  | Except.error e => Except.error e
  | Except.ok us =>
    match getIntArg c.args "tagging_scheme_code" with
    | Except.error e => Except.error e
    | Except.ok code =>
      match taggingSchemeOfCode code with
      | Except.error e => Except.error e
      | Except.ok scheme =>
        let f : EntityMatchFactory :=
          { factory_config := c, use_stemming := us,
            tagging_scheme := scheme, language := none }
        match langOf c.args with
        | some l => Except.ok (emSetLanguage f l)
        | none => Except.ok f

/-- `EntityMatchFactory.fit` (source lines 402-404): binds the language and
explicitly returns `self`. -/
def entityMatchFit (f : EntityMatchFactory) (d : Dataset) : EntityMatchFactory :=
  emSetLanguage f d.language

/-- `EntityMatchFactory._transform` (source lines 406-414): stem or
normalize the token and re-span it from its original start to
`start + len(transformed_value)`. -/
def emTransform (E : Ext) (f : EntityMatchFactory) (t : Token) : Token :=
  let v := if f.use_stemming then E.stem f.language t else E.normalize t
  { value := v, start := t.start, «end» := t.start + v.length }

/-- The per-entity closure built by
`EntityMatchFactory._build_entity_match_fn` (source lines 431-450). -/
def entityMatchFn (E : Ext) (f : EntityMatchFactory) (P : CustomParser)
    (entity : String) (tokens : List Token) (tokenIndex : Nat) :
    Option (Option String) :=
  let transformed := tokens.map (emTransform E f)
  match transformed.get? tokenIndex with
  | none => none
  | some tok =>
    let text := initial_string_from_tokens transformed
    let filtered := (P.parse text [entity]).filter
      (fun ent => entity_filter ent tok.start tok.«end»)
    match filtered with
    | [] => some none
    | ent :: _ =>
      let indexes := ((transformed.enum).filter
        (fun p => entity_filter ent p.2.start p.2.«end»)).map Prod.fst
      some (some (schemePrefixOf tokenIndex indexes f.tagging_scheme))

/-- `EntityMatchFactory.build_features` (source lines 416-429): one feature
per (custom entity label, offset), entity-major. -/
def entityMatchBuild (E : Ext) (f : EntityMatchFactory) (P : CustomParser) :
    List Feature :=
  P.entities.flatMap (fun entity =>
    f.factory_config.offsets.map (fun off =>
      { base_name := "entity_match_" ++ entity,
        func := entityMatchFn E f P entity,
        offset := off, drop_out := f.factory_config.drop_out }))

/-- State of a `BuiltinEntityMatchFactory` (source lines 465-549). -/
structure BuiltinEntityMatchFactory where
  factory_config : FactoryConfig
  tagging_scheme : TaggingScheme
  builtin_entities : Option (List String)
  language : Option String
deriving DecidableEq, Repr

/-- The `BuiltinEntityMatchFactory.language` setter (source lines 492-496)
with a non-`None` value. -/
def bemSetLanguage (f : BuiltinEntityMatchFactory) (l : String) :
    BuiltinEntityMatchFactory :=
  { f with language := some l, factory_config := setLang f.factory_config l }

/-- `BuiltinEntityMatchFactory.__init__` (source lines 479-486). -/
def mkBuiltinEntityMatch (c : FactoryConfig) :
    Except String BuiltinEntityMatchFactory :=
  match getIntArg c.args "tagging_scheme_code" with
  | Except.error e => Except.error e
  | Except.ok code =>
    match taggingSchemeOfCode code with
    | Except.error e => Except.error e
    | Except.ok scheme =>
      let f : BuiltinEntityMatchFactory :=
        { factory_config := c, tagging_scheme := scheme,
          builtin_entities := entityLabelsOf c.args, language := none }
      match langOf c.args with
      | some l => Except.ok (bemSetLanguage f l)
      | none => Except.ok f

/-- `BuiltinEntityMatchFactory._get_builtin_entity_scope` (source lines
543-549): the concatenation of grammar-supported entities and dataset
gazetteer entities. -/
def builtinEntityScope (E : Ext) (d : Dataset) (intent : Option String) :
    List String :=
  E.grammar_entities d.language ++ E.dataset_gazetteer_entities d intent

/-- `BuiltinEntityMatchFactory.fit` (source lines 498-501): binds the
language, resolves the entity scope, and writes both back into the config's
args (no `return`). -/
def builtinEntityMatchFit (E : Ext) (f : BuiltinEntityMatchFactory)
    (d : Dataset) (intent : Option String) : BuiltinEntityMatchFactory :=
  let f1 := bemSetLanguage f d.language
  let scope := builtinEntityScope E d intent
  { f1 with builtin_entities := some scope,
            factory_config :=
              { f1.factory_config with
                args := setArg f1.factory_config.args "entity_labels"
                  (Val.vlist scope) } }

/-- The per-entity closure built by
`BuiltinEntityMatchFactory._build_entity_match_fn` (source lines 519-541);
the token-collection test is the inline containment of lines 535-536. -/
def builtinEntityMatchFn (_E : Ext) (f : BuiltinEntityMatchFactory)
    (P : BuiltinParser) (entity : String) (tokens : List Token)
    (tokenIndex : Nat) : Option (Option String) :=
  match tokens.get? tokenIndex with
  | none => none
  | some tok =>
    let text := initial_string_from_tokens tokens
    let filtered := (P.parse text [entity]).filter
      (fun ent => entity_filter ent tok.start tok.«end»)
    match filtered with
    | [] => some none
    | ent :: _ =>
      let indexes := ((tokens.enum).filter
        (fun p => decide (ent.rstart ≤ p.2.start ∧ p.2.start < ent.rend) &&
                  decide (ent.rstart < p.2.«end» ∧ p.2.«end» ≤ ent.rend))).map
        Prod.fst
      some (some (schemePrefixOf tokenIndex indexes f.tagging_scheme))

/-- `BuiltinEntityMatchFactory.build_features` (source lines 503-517):
iterating `self.builtin_entities` raises when it is still `None`. -/
def builtinEntityMatchBuild (E : Ext) (f : BuiltinEntityMatchFactory)
    (P : BuiltinParser) : Except String (List Feature) :=
  match f.builtin_entities with
  | none => Except.error "TypeError: builtin_entities is None"
  | some labels =>
    Except.ok (labels.flatMap (fun entity =>
      f.factory_config.offsets.map (fun off =>
        { base_name := "builtin_entity_match_" ++ entity,
          func := builtinEntityMatchFn E f P entity,
          offset := off, drop_out := f.factory_config.drop_out })))

/-- Python `str.isdigit`: non-empty and all decimal digits. -/
def isDigitStr (s : String) : Bool :=
  decide (s ≠ "") && s.all Char.isDigit

/-- `IsDigitFactory.compute_feature` (source lines 101-102). -/
def isDigitCompute (tokens : List Token) (tokenIndex : Nat) :
    Option (Option String) :=
  (tokens.get? tokenIndex).map (fun t =>
    if isDigitStr t.value then some "1" else none)

/-- `IsFirstFactory.compute_feature` (source lines 110-111): no indexing,
so it never raises. -/
def isFirstCompute (_tokens : List Token) (tokenIndex : Nat) :
    Option (Option String) :=
  some (if tokenIndex = 0 then some "1" else none)

/-- `IsLastFactory.compute_feature` (source lines 119-120). -/
def isLastCompute (tokens : List Token) (tokenIndex : Nat) :
    Option (Option String) :=
  some (if tokenIndex = tokens.length - 1 then some "1" else none)

/-- `LengthFactory.compute_feature` (source lines 173-174). -/
def lengthCompute (tokens : List Token) (tokenIndex : Nat) :
    Option (Option String) :=
  (tokens.get? tokenIndex).map (fun t => some (toString t.value.length))

/-- `PrefixFactory.compute_feature` (source lines 140-142): the
`prefix_size` property re-reads the args on every call, raising when the
key is missing. -/
def prefixCompute (E : Ext) (c : FactoryConfig) (tokens : List Token)
    (tokenIndex : Nat) : Option (Option String) :=
  match tokens.get? tokenIndex with
  | none => none
  | some t =>
    match getIntArg c.args "prefix_size" with
    | Except.error _ => none
    | Except.ok sz => some (some (get_word_chunk (E.normalize t) sz 0 false))

/-- `SuffixFactory.compute_feature` (source lines 162-165): the chunk is
anchored at the raw (pre-normalization) value's length. -/
def suffixCompute (E : Ext) (c : FactoryConfig) (tokens : List Token)
    (tokenIndex : Nat) : Option (Option String) :=
  match tokens.get? tokenIndex with
  | none => none
  | some t =>
    match getIntArg c.args "suffix_size" with
    | Except.error _ => none
    | Except.ok sz =>
      some (some (get_word_chunk (E.normalize t) sz t.value.length true))

/-- The closed set of the eleven feature factories (source line 552-554).
Kinds whose `__init__` caches nothing beyond the config carry just the
config. -/
inductive FactoryInst where
  | isDigit (c : FactoryConfig)
  | isFirst (c : FactoryConfig)
  | isLast (c : FactoryConfig)
  | prefixFa (c : FactoryConfig)
  | suffixFa (c : FactoryConfig)
  | lengthFa (c : FactoryConfig)
  | ngram (f : NgramFactory)
  | shapeNgram (f : ShapeNgramFactory)
  | wordCluster (f : WordClusterFactory)
  | entityM (f : EntityMatchFactory)
  | builtinM (f : BuiltinEntityMatchFactory)
deriving DecidableEq, Repr

/-- The `name` class attribute of each factory kind. -/
def instName : FactoryInst → String
  | FactoryInst.isDigit _ => "is_digit"
  | FactoryInst.isFirst _ => "is_first"
  | FactoryInst.isLast _ => "is_last"
  | FactoryInst.prefixFa _ => "prefix"
  | FactoryInst.suffixFa _ => "suffix"
  | FactoryInst.lengthFa _ => "length"
  | FactoryInst.ngram _ => "ngram"
  | FactoryInst.shapeNgram _ => "shape_ngram"
  | FactoryInst.wordCluster _ => "word_cluster"
  | FactoryInst.entityM _ => "entity_match"
  | FactoryInst.builtinM _ => "builtin_entity_match"

/-- The `factory_config` each instance holds (`self.factory_config`). -/
def configOf : FactoryInst → FactoryConfig
  | FactoryInst.isDigit c => c
  | FactoryInst.isFirst c => c
  | FactoryInst.isLast c => c
  | FactoryInst.prefixFa c => c
  | FactoryInst.suffixFa c => c
  | FactoryInst.lengthFa c => c
  | FactoryInst.ngram f => f.factory_config
  | FactoryInst.shapeNgram f => f.factory_config
  | FactoryInst.wordCluster f => f.factory_config
  | FactoryInst.entityM f => f.factory_config
  | FactoryInst.builtinM f => f.factory_config

/-- `fit(dataset, intent)` dispatched over the kinds. The first component
is the factory's state after the call (Python objects mutate in place); the
second is the Python return value, `some` the returned factory or `none`
for the overrides that fall off the end without a `return` statement
(source lines 59-62, 225-226, 298-299, 349-350, 402-404, 498-501). -/
def fitInst (E : Ext) (inst : FactoryInst) (d : Dataset)
    (intent : Option String) : FactoryInst × Option FactoryInst :=
  match inst with
  | FactoryInst.isDigit c => (FactoryInst.isDigit c, some (FactoryInst.isDigit c))
  | FactoryInst.isFirst c => (FactoryInst.isFirst c, some (FactoryInst.isFirst c))
  | FactoryInst.isLast c => (FactoryInst.isLast c, some (FactoryInst.isLast c))
  | FactoryInst.prefixFa c => (FactoryInst.prefixFa c, some (FactoryInst.prefixFa c))
  | FactoryInst.suffixFa c => (FactoryInst.suffixFa c, some (FactoryInst.suffixFa c))
  | FactoryInst.lengthFa c => (FactoryInst.lengthFa c, some (FactoryInst.lengthFa c))
  | FactoryInst.ngram f => (FactoryInst.ngram (ngramFit E f d), none)
  | FactoryInst.shapeNgram f => (FactoryInst.shapeNgram (shapeNgramFit f d), none)
  | FactoryInst.wordCluster f => (FactoryInst.wordCluster (wordClusterFit E f d), none)
  | FactoryInst.entityM f =>
      let f' := entityMatchFit f d
      (FactoryInst.entityM f', some (FactoryInst.entityM f'))
  | FactoryInst.builtinM f =>
      (FactoryInst.builtinM (builtinEntityMatchFit E f d intent), none)

/-- `build_features` dispatched over the kinds. Single-feature kinds build
one `Feature` per offset around their `compute_feature` and `feature_name`
(source lines 85-93); the prefix/suffix names re-read the args, which can
raise, and the comprehension only evaluates them when `offsets` is
non-empty — hence the leading match on `offsets`. -/
def buildInst (E : Ext) (inst : FactoryInst) (BP : BuiltinParser)
    (CP : CustomParser) : Except String (List Feature) :=
  match inst with
  | FactoryInst.isDigit c =>
      Except.ok (c.offsets.map (fun off =>
        { base_name := "is_digit", func := isDigitCompute,
          offset := off, drop_out := c.drop_out }))
  | FactoryInst.isFirst c =>
      Except.ok (c.offsets.map (fun off =>
        { base_name := "is_first", func := isFirstCompute,
          offset := off, drop_out := c.drop_out }))
  | FactoryInst.isLast c =>
      Except.ok (c.offsets.map (fun off =>
        { base_name := "is_last", func := isLastCompute,
          offset := off, drop_out := c.drop_out }))
  | FactoryInst.prefixFa c =>
      match c.offsets with
      | [] => Except.ok []
      | _ :: _ =>
        match getIntArg c.args "prefix_size" with
        | Except.error e => Except.error e
        | Except.ok sz =>
          Except.ok (c.offsets.map (fun off =>
            { base_name := "prefix_" ++ toString sz,
              func := prefixCompute E c,
              offset := off, drop_out := c.drop_out }))
  | FactoryInst.suffixFa c =>
      match c.offsets with
      | [] => Except.ok []
      | _ :: _ =>
        match getIntArg c.args "suffix_size" with
        | Except.error e => Except.error e
        | Except.ok sz =>
          Except.ok (c.offsets.map (fun off =>
            { base_name := "suffix_" ++ toString sz,
              func := suffixCompute E c,
              offset := off, drop_out := c.drop_out }))
  | FactoryInst.lengthFa c =>
      Except.ok (c.offsets.map (fun off =>
        { base_name := "length", func := lengthCompute,
          offset := off, drop_out := c.drop_out }))
  | FactoryInst.ngram f =>
      Except.ok (f.factory_config.offsets.map (fun off =>
        { base_name := "ngram_" ++ toString f.n, func := ngramCompute E f,
          offset := off, drop_out := f.factory_config.drop_out }))
  | FactoryInst.shapeNgram f =>
      Except.ok (f.factory_config.offsets.map (fun off =>
        { base_name := "shape_ngram_" ++ toString f.n,
          func := shapeNgramCompute E f,
          offset := off, drop_out := f.factory_config.drop_out }))
  | FactoryInst.wordCluster f =>
      Except.ok (f.factory_config.offsets.map (fun off =>
        { base_name := "word_cluster_" ++ f.cluster_name,
          func := wordClusterCompute E f,
          offset := off, drop_out := f.factory_config.drop_out }))
  | FactoryInst.entityM f => Except.ok (entityMatchBuild E f CP)
  | FactoryInst.builtinM f => builtinEntityMatchBuild E f BP

/-- The `FACTORIES` registry list (source lines 552-554): each entry pairs
the kind's `name` attribute with its constructor. -/
def FACTORIES (E : Ext) :
    List (String × (FactoryConfig → Except String FactoryInst)) :=
  [("is_digit", fun c => Except.ok (FactoryInst.isDigit c)),
   ("is_first", fun c => Except.ok (FactoryInst.isFirst c)),
   ("is_last", fun c => Except.ok (FactoryInst.isLast c)),
   ("prefix", fun c => Except.ok (FactoryInst.prefixFa c)),
   ("suffix", fun c => Except.ok (FactoryInst.suffixFa c)),
   ("length", fun c => Except.ok (FactoryInst.lengthFa c)),
   ("ngram", fun c => (mkNgram E c).map FactoryInst.ngram),
   ("shape_ngram", fun c => (mkShapeNgram c).map FactoryInst.shapeNgram),
   ("word_cluster", fun c => (mkWordCluster E c).map FactoryInst.wordCluster),
   ("entity_match", fun c => (mkEntityMatch c).map FactoryInst.entityM),
   ("builtin_entity_match",
    fun c => (mkBuiltinEntityMatch c).map FactoryInst.builtinM)]

/-- The linear scan of `get_feature_factory` (source lines 561-563). -/
def findFactory (factory_name : String) (c : FactoryConfig) :
    List (String × (FactoryConfig → Except String FactoryInst)) →
    Except String FactoryInst
  | [] => Except.error ("Unknown feature factory: " ++ factory_name)
  | (name, mk) :: rest =>
      if factory_name = name then mk c else findFactory factory_name c rest

/-- `get_feature_factory` (source lines 557-564). -/
def get_feature_factory (E : Ext) (c : FactoryConfig) :
    Except String FactoryInst :=
  findFactory c.factory_name c (FACTORIES E)

/-- A concrete bundle of collaborators used to evaluate the development on
closed inputs: identity-like normalization/stemming, a single grammar
entity and no gazetteer entities. -/
def testExt : Ext :=
  { normalize := fun t => t.value
    stem := fun _ t => t.value
    shape := fun s => s
    sep := fun _ => " "
    gazetteer := fun _ _ => []
    word_clusters := fun _ _ => [("hello", "110")]
    grammar_entities := fun _ => ["snips/number"]
    dataset_gazetteer_entities := fun _ _ => [] }

/-- Collaborators whose grammar and dataset-gazetteer entity scopes share a
label — allowed by the interface (§6 promises two sets, not disjoint
ones). -/
def overlapExt : Ext :=
  { testExt with dataset_gazetteer_entities := fun _ _ => ["snips/number"] }

def testDataset : Dataset := { language := "en" }

def testTokens : List Token :=
  [{ value := "hello", start := 0, «end» := 5 },
   { value := "world", start := 6, «end» := 11 }]

/-- A custom parser recognizing one label, always matching characters 0-5. -/
def testCustomParser : CustomParser :=
  { entities := ["city"], parse := fun _ _ => [{ rstart := 0, rend := 5 }] }

/-- A builtin parser always matching characters 0-5. -/
def testBuiltinParser : BuiltinParser :=
  { parse := fun _ _ => [{ rstart := 0, rend := 5 }] }

/-- A builtin parser returning two matches, the second covering more. -/
def twoMatchBuiltinParser : BuiltinParser :=
  { parse := fun _ _ => [{ rstart := 0, rend := 5 }, { rstart := 0, rend := 11 }] }

/-- A builtin parser whose only match overlaps the first test token without
containing it. -/
def partialBuiltinParser : BuiltinParser :=
  { parse := fun _ _ => [{ rstart := 3, rend := 11 }] }

/-- A custom parser that never matches. -/
def emptyCustomParser : CustomParser :=
  { entities := ["city"], parse := fun _ _ => [] }

def testNgramCfg : FactoryConfig :=
  { factory_name := "ngram"
    args := [("n", Val.vint 1), ("use_stemming", Val.vbool false),
             ("common_words_gazetteer_name", Val.vnone)]
    offsets := [0]
    drop_out := 0 }

def testNgramFactory : NgramFactory :=
  { factory_config := testNgramCfg, n := 1, use_stemming := false,
    common_words_gazetteer_name := none, gazetteer := none, language := none }

def testShapeCfg : FactoryConfig :=
  { factory_name := "shape_ngram", args := [("n", Val.vint 1)],
    offsets := [0], drop_out := 0 }

def testShapeFactory : ShapeNgramFactory :=
  { factory_config := testShapeCfg, n := 1, language := none }

def testWordClusterCfg : FactoryConfig :=
  { factory_name := "word_cluster"
    args := [("cluster_name", Val.vstr "brown"),
             ("use_stemming", Val.vbool false)]
    offsets := [0]
    drop_out := 0 }

def testEntityMatchCfg : FactoryConfig :=
  { factory_name := "entity_match"
    args := [("use_stemming", Val.vbool false),
             ("tagging_scheme_code", Val.vint 1)]
    offsets := [0]
    drop_out := 0 }

def testEntityMatchFactory : EntityMatchFactory :=
  { factory_config := testEntityMatchCfg, use_stemming := false,
    tagging_scheme := TaggingScheme.bioTag, language := none }

def testBuiltinCfg : FactoryConfig :=
  { factory_name := "builtin_entity_match"
    args := [("tagging_scheme_code", Val.vint 1)]
    offsets := [0]
    drop_out := 0 }

def testBuiltinFactory : BuiltinEntityMatchFactory :=
  { factory_config := testBuiltinCfg, tagging_scheme := TaggingScheme.bioTag,
    builtin_entities := none, language := none }

/-- The per-token normalization feature as §8 of the spec words it: the
normalized value of the token at the given index ("N-gram with `n=1` and
`use_stemming=false` on any token sequence equals the per-token
normalization feature"). This definition follows the spec's words, to be
compared with `ngramCompute`, which follows the source. -/
def specPerTokenNormalization (E : Ext) (tokens : List Token) (i : Nat) :
    Option (Option String) :=
  (tokens.get? i).map (fun t => some (E.normalize t))

def c7fitted : BuiltinEntityMatchFactory :=
  builtinEntityMatchFit testExt testBuiltinFactory testDataset none

def c7fs : List Feature :=
  [{ base_name := "builtin_entity_match_snips/number",
     func := builtinEntityMatchFn testExt c7fitted testBuiltinParser
       "snips/number",
     offset := 0, drop_out := 0 }]

/-- A config whose name is none of the eleven registered factory kinds. -/
def unknownCfg : FactoryConfig :=
  { factory_name := "quux", args := [], offsets := [0], drop_out := 0 }

/-- The eleven registered factory names, in registry order. -/
def factoryNames : List String :=
  ["is_digit", "is_first", "is_last", "prefix", "suffix", "length",
   "ngram", "shape_ngram", "word_cluster", "entity_match",
   "builtin_entity_match"]

theorem argLookup_setArg_self (a : List (String × Val)) (k : String) (v : Val) :
    argLookup (setArg a k v) k = some v := by
  induction a with
  | nil => simp [setArg, argLookup]
  | cons hd tl ih =>
    obtain ⟨k0, v0⟩ := hd
    by_cases hk : k0 = k
    · subst hk
      simp [setArg, argLookup]
    · simp [setArg, hk, argLookup, ih]

theorem argLookup_setArg_ne (a : List (String × Val)) (k k' : String) (v : Val)
    (h : k' ≠ k) : argLookup (setArg a k v) k' = argLookup a k' := by
  induction a with
  | nil => simp [setArg, argLookup, Ne.symm h]
  | cons hd tl ih =>
    obtain ⟨k0, v0⟩ := hd
    by_cases hk : k0 = k
    · subst hk
      simp [setArg, argLookup, Ne.symm h]
    · simp [setArg, hk, argLookup, ih]

theorem setArg_of_lookup_eq (a : List (String × Val)) (k : String) (v : Val)
    (h : argLookup a k = some v) : setArg a k v = a := by
  induction a with
  | nil => simp [argLookup] at h
  | cons hd tl ih =>
    obtain ⟨k0, v0⟩ := hd
    by_cases hk : k0 = k
    · subst hk
      simp [argLookup] at h
      simp [setArg, h]
    · simp [argLookup, hk] at h
      simp [setArg, hk, ih h]

/-- C5 counterexample: the claim "fit(dataset, intent) returns the factory
instance itself for every factory kind" is false at a concrete input: the
`NgramFactory.fit` override (source lines 225-226) has no `return`
statement, so the call evaluates to `None`, not to the factory. -/
theorem C5_counterexample :
    (fitInst testExt (FactoryInst.ngram testNgramFactory) testDataset none).2
      = none ∧
    (fitInst testExt (FactoryInst.ngram testNgramFactory) testDataset none).2
      ≠ some (fitInst testExt (FactoryInst.ngram testNgramFactory)
                testDataset none).1 := by
  constructor
  · rfl
  · intro h
    simp [fitInst] at h

/-- C5 (amended): `fit` returns the factory itself for the six kinds using
the base-class default and for the custom entity-match override (which ends
in `return self`); the n-gram, shape-n-gram, word-cluster and builtin
entity-match overrides bind their state in place but fall off the end of
the function, returning `None`. -/
theorem C5_fit_return_values (E : Ext) (inst : FactoryInst) (d : Dataset)
    (intent : Option String) :
    (fitInst E inst d intent).2 =
      match inst with
      | FactoryInst.ngram _ => none
      | FactoryInst.shapeNgram _ => none
      | FactoryInst.wordCluster _ => none
      | FactoryInst.builtinM _ => none
      | _ => some (fitInst E inst d intent).1 := by
  cases inst <;> rfl

/-- C6 counterexample: the claim "the FactoryConfig supplied at
construction (including its args mapping) is left unchanged by fit" is
false at a concrete input: fitting an n-gram factory writes
`args["language_code"]` through the language setter (source line 216). -/
theorem C6_counterexample :
    configOf (fitInst testExt (FactoryInst.ngram testNgramFactory)
      testDataset none).1
      ≠ configOf (FactoryInst.ngram testNgramFactory) ∧
    argLookup (configOf (fitInst testExt (FactoryInst.ngram testNgramFactory)
      testDataset none).1).args "language_code" = some (Val.vstr "en") ∧
    argLookup (configOf (FactoryInst.ngram testNgramFactory)).args
      "language_code" = none := by
  refine ⟨?_, rfl, rfl⟩
  decide

/-- C6 (amended): `fit` mutates only the factory's own bound state and the
config's args mapping, and there only the `"language_code"` binding (plus
`"entity_labels"` for the builtin entity-match kind): the config's
`factory_name`, `offsets`, `drop_out` and every other args key are left
unchanged by fit, for every factory kind. -/
theorem C6_fit_frame (E : Ext) (inst : FactoryInst) (d : Dataset)
    (intent : Option String) :
    (configOf (fitInst E inst d intent).1).factory_name
      = (configOf inst).factory_name ∧
    (configOf (fitInst E inst d intent).1).offsets = (configOf inst).offsets ∧
    (configOf (fitInst E inst d intent).1).drop_out
      = (configOf inst).drop_out ∧
    ∀ k : String, k ≠ "language_code" → k ≠ "entity_labels" →
      argLookup (configOf (fitInst E inst d intent).1).args k
        = argLookup (configOf inst).args k := by
  cases inst with
  | ngram f =>
    refine ⟨rfl, rfl, rfl, ?_⟩
    intro k h1 _
    simp [fitInst, configOf, ngramFit, ngramSetLanguage, setLang,
          argLookup_setArg_ne _ _ _ _ h1]
  | shapeNgram f =>
    refine ⟨rfl, rfl, rfl, ?_⟩
    intro k h1 _
    simp [fitInst, configOf, shapeNgramFit, shapeSetLanguage, setLang,
          argLookup_setArg_ne _ _ _ _ h1]
  | wordCluster f =>
    refine ⟨rfl, rfl, rfl, ?_⟩
    intro k h1 _
    simp [fitInst, configOf, wordClusterFit, wordClusterSetLanguage, setLang,
          argLookup_setArg_ne _ _ _ _ h1]
  | entityM f =>
    refine ⟨rfl, rfl, rfl, ?_⟩
    intro k h1 _
    simp [fitInst, configOf, entityMatchFit, emSetLanguage, setLang,
          argLookup_setArg_ne _ _ _ _ h1]
  | builtinM f =>
    refine ⟨rfl, rfl, rfl, ?_⟩
    intro k h1 h2
    simp [fitInst, configOf, builtinEntityMatchFit, bemSetLanguage, setLang,
          argLookup_setArg_ne _ _ _ _ h2, argLookup_setArg_ne _ _ _ _ h1]
  | isDigit c => exact ⟨rfl, rfl, rfl, fun _ _ _ => rfl⟩
  | isFirst c => exact ⟨rfl, rfl, rfl, fun _ _ _ => rfl⟩
  | isLast c => exact ⟨rfl, rfl, rfl, fun _ _ _ => rfl⟩
  | prefixFa c => exact ⟨rfl, rfl, rfl, fun _ _ _ => rfl⟩
  | suffixFa c => exact ⟨rfl, rfl, rfl, fun _ _ _ => rfl⟩
  | lengthFa c => exact ⟨rfl, rfl, rfl, fun _ _ _ => rfl⟩

/-- C6 witness: the frame theorem applied at a concrete factory, dataset
and args key. -/
theorem C6_fit_frame_witness :
    argLookup (configOf (fitInst testExt
      (FactoryInst.ngram testNgramFactory) testDataset none).1).args "n"
      = argLookup (configOf (FactoryInst.ngram testNgramFactory)).args "n" :=
  (C6_fit_frame testExt (FactoryInst.ngram testNgramFactory) testDataset
    none).2.2.2 "n" (by decide) (by decide)

theorem gff_is_digit (E : Ext) (c : FactoryConfig)
    (h : c.factory_name = "is_digit") :
    get_feature_factory E c = Except.ok (FactoryInst.isDigit c) := by
  unfold get_feature_factory
  rw [h]
  rfl

theorem gff_is_first (E : Ext) (c : FactoryConfig)
    (h : c.factory_name = "is_first") :
    get_feature_factory E c = Except.ok (FactoryInst.isFirst c) := by
  unfold get_feature_factory
  rw [h]
  rfl

theorem gff_is_last (E : Ext) (c : FactoryConfig)
    (h : c.factory_name = "is_last") :
    get_feature_factory E c = Except.ok (FactoryInst.isLast c) := by
  unfold get_feature_factory
  rw [h]
  rfl

theorem gff_prefix_kind (E : Ext) (c : FactoryConfig)
    (h : c.factory_name = "prefix") :
    get_feature_factory E c = Except.ok (FactoryInst.prefixFa c) := by
  unfold get_feature_factory
  rw [h]
  rfl

theorem gff_suffix_kind (E : Ext) (c : FactoryConfig)
    (h : c.factory_name = "suffix") :
    get_feature_factory E c = Except.ok (FactoryInst.suffixFa c) := by
  unfold get_feature_factory
  rw [h]
  rfl

theorem gff_length (E : Ext) (c : FactoryConfig)
    (h : c.factory_name = "length") :
    get_feature_factory E c = Except.ok (FactoryInst.lengthFa c) := by
  unfold get_feature_factory
  rw [h]
  rfl

theorem gff_ngram (E : Ext) (c : FactoryConfig)
    (h : c.factory_name = "ngram") :
    get_feature_factory E c = (mkNgram E c).map FactoryInst.ngram := by
  unfold get_feature_factory
  rw [h]
  rfl

theorem gff_shape_ngram (E : Ext) (c : FactoryConfig)
    (h : c.factory_name = "shape_ngram") :
    get_feature_factory E c = (mkShapeNgram c).map FactoryInst.shapeNgram := by
  unfold get_feature_factory
  rw [h]
  rfl

theorem gff_word_cluster (E : Ext) (c : FactoryConfig)
    (h : c.factory_name = "word_cluster") :
    get_feature_factory E c
      = (mkWordCluster E c).map FactoryInst.wordCluster := by
  unfold get_feature_factory
  rw [h]
  rfl

theorem gff_entity_match (E : Ext) (c : FactoryConfig)
    (h : c.factory_name = "entity_match") :
    get_feature_factory E c = (mkEntityMatch c).map FactoryInst.entityM := by
  unfold get_feature_factory
  rw [h]
  rfl

theorem gff_builtin_entity_match (E : Ext) (c : FactoryConfig)
    (h : c.factory_name = "builtin_entity_match") :
    get_feature_factory E c
      = (mkBuiltinEntityMatch c).map FactoryInst.builtinM := by
  unfold get_feature_factory
  rw [h]
  rfl

theorem gff_unknown (E : Ext) (c : FactoryConfig)
    (h : c.factory_name ∉ factoryNames) :
    get_feature_factory E c
      = Except.error ("Unknown feature factory: " ++ c.factory_name) := by
  simp only [factoryNames, List.mem_cons, List.mem_singleton, not_or] at h
  obtain ⟨h1, h2, h3, h4, h5, h6, h7, h8, h9, h10, h11, -⟩ := h
  unfold get_feature_factory FACTORIES
  simp only [findFactory]
  rw [if_neg h1, if_neg h2, if_neg h3, if_neg h4, if_neg h5, if_neg h6,
      if_neg h7, if_neg h8, if_neg h9, if_neg h10, if_neg h11]

theorem gff_success_name (E : Ext) (c : FactoryConfig) (inst : FactoryInst)
    (hok : get_feature_factory E c = Except.ok inst) :
    instName inst = c.factory_name ∧ c.factory_name ∈ factoryNames := by
  unfold get_feature_factory FACTORIES at hok
  simp only [findFactory] at hok
  by_cases h1 : c.factory_name = "is_digit"
  · rw [if_pos h1] at hok
    cases hok
    exact ⟨h1.symm, by rw [h1]; simp [factoryNames]⟩
  rw [if_neg h1] at hok
  by_cases h2 : c.factory_name = "is_first"
  · rw [if_pos h2] at hok
    cases hok
    exact ⟨h2.symm, by rw [h2]; simp [factoryNames]⟩
  rw [if_neg h2] at hok
  by_cases h3 : c.factory_name = "is_last"
  · rw [if_pos h3] at hok
    cases hok
    exact ⟨h3.symm, by rw [h3]; simp [factoryNames]⟩
  rw [if_neg h3] at hok
  by_cases h4 : c.factory_name = "prefix"
  · rw [if_pos h4] at hok
    cases hok
    exact ⟨h4.symm, by rw [h4]; simp [factoryNames]⟩
  rw [if_neg h4] at hok
  by_cases h5 : c.factory_name = "suffix"
  · rw [if_pos h5] at hok
    cases hok
    exact ⟨h5.symm, by rw [h5]; simp [factoryNames]⟩
  rw [if_neg h5] at hok
  by_cases h6 : c.factory_name = "length"
  · rw [if_pos h6] at hok
    cases hok
    exact ⟨h6.symm, by rw [h6]; simp [factoryNames]⟩
  rw [if_neg h6] at hok
  by_cases h7 : c.factory_name = "ngram"
  · rw [if_pos h7] at hok
    cases hmk : mkNgram E c with
    | error e => rw [hmk] at hok; simp [Except.map] at hok
    | ok f =>
      rw [hmk] at hok
      simp only [Except.map, Except.ok.injEq] at hok
      subst hok
      exact ⟨h7.symm, by rw [h7]; simp [factoryNames]⟩
  rw [if_neg h7] at hok
  by_cases h8 : c.factory_name = "shape_ngram"
  · rw [if_pos h8] at hok
    cases hmk : mkShapeNgram c with
    | error e => rw [hmk] at hok; simp [Except.map] at hok
    | ok f =>
      rw [hmk] at hok
      simp only [Except.map, Except.ok.injEq] at hok
      subst hok
      exact ⟨h8.symm, by rw [h8]; simp [factoryNames]⟩
  rw [if_neg h8] at hok
  by_cases h9 : c.factory_name = "word_cluster"
  · rw [if_pos h9] at hok
    cases hmk : mkWordCluster E c with
    | error e => rw [hmk] at hok; simp [Except.map] at hok
    | ok f =>
      rw [hmk] at hok
      simp only [Except.map, Except.ok.injEq] at hok
      subst hok
      exact ⟨h9.symm, by rw [h9]; simp [factoryNames]⟩
  rw [if_neg h9] at hok
  by_cases h10 : c.factory_name = "entity_match"
  · rw [if_pos h10] at hok
    cases hmk : mkEntityMatch c with
    | error e => rw [hmk] at hok; simp [Except.map] at hok
    | ok f =>
      rw [hmk] at hok
      simp only [Except.map, Except.ok.injEq] at hok
      subst hok
      exact ⟨h10.symm, by rw [h10]; simp [factoryNames]⟩
  rw [if_neg h10] at hok
  by_cases h11 : c.factory_name = "builtin_entity_match"
  · rw [if_pos h11] at hok
    cases hmk : mkBuiltinEntityMatch c with
    | error e => rw [hmk] at hok; simp [Except.map] at hok
    | ok f =>
      rw [hmk] at hok
      simp only [Except.map, Except.ok.injEq] at hok
      subst hok
      exact ⟨h11.symm, by rw [h11]; simp [factoryNames]⟩
  rw [if_neg h11] at hok
  simp at hok

/-- C9: `get_feature_factory` is a linear lookup by `factory_name` over the
fixed list of eleven kinds: for each of the eleven names it constructs and
returns that kind's factory from the config; any success carries a factory
of the kind registered under exactly the config's name (so a name outside
the eleven never succeeds); and an unregistered name fails with an error
identifying the offending name. -/
theorem C9_registry_lookup :
    (∀ (E : Ext) (c : FactoryConfig),
      c.factory_name = "is_digit" →
        get_feature_factory E c = Except.ok (FactoryInst.isDigit c)) ∧
    (∀ (E : Ext) (c : FactoryConfig),
      c.factory_name = "is_first" →
        get_feature_factory E c = Except.ok (FactoryInst.isFirst c)) ∧
    (∀ (E : Ext) (c : FactoryConfig),
      c.factory_name = "is_last" →
        get_feature_factory E c = Except.ok (FactoryInst.isLast c)) ∧
    (∀ (E : Ext) (c : FactoryConfig),
      c.factory_name = "prefix" →
        get_feature_factory E c = Except.ok (FactoryInst.prefixFa c)) ∧
    (∀ (E : Ext) (c : FactoryConfig),
      c.factory_name = "suffix" →
        get_feature_factory E c = Except.ok (FactoryInst.suffixFa c)) ∧
    (∀ (E : Ext) (c : FactoryConfig),
      c.factory_name = "length" →
        get_feature_factory E c = Except.ok (FactoryInst.lengthFa c)) ∧
    (∀ (E : Ext) (c : FactoryConfig),
      c.factory_name = "ngram" →
        get_feature_factory E c = (mkNgram E c).map FactoryInst.ngram) ∧
    (∀ (E : Ext) (c : FactoryConfig),
      c.factory_name = "shape_ngram" →
        get_feature_factory E c = (mkShapeNgram c).map FactoryInst.shapeNgram) ∧
    (∀ (E : Ext) (c : FactoryConfig),
      c.factory_name = "word_cluster" →
        get_feature_factory E c
          = (mkWordCluster E c).map FactoryInst.wordCluster) ∧
    (∀ (E : Ext) (c : FactoryConfig),
      c.factory_name = "entity_match" →
        get_feature_factory E c = (mkEntityMatch c).map FactoryInst.entityM) ∧
    (∀ (E : Ext) (c : FactoryConfig),
      c.factory_name = "builtin_entity_match" →
        get_feature_factory E c
          = (mkBuiltinEntityMatch c).map FactoryInst.builtinM) ∧
    (∀ (E : Ext) (c : FactoryConfig) (inst : FactoryInst),
      get_feature_factory E c = Except.ok inst →
        instName inst = c.factory_name ∧ c.factory_name ∈ factoryNames) ∧
    (∀ (E : Ext) (c : FactoryConfig),
      c.factory_name ∉ factoryNames →
        get_feature_factory E c
          = Except.error ("Unknown feature factory: " ++ c.factory_name)) :=
  ⟨gff_is_digit, gff_is_first, gff_is_last, gff_prefix_kind, gff_suffix_kind,
   gff_length, gff_ngram, gff_shape_ngram, gff_word_cluster, gff_entity_match,
   gff_builtin_entity_match, gff_success_name, gff_unknown⟩

/-- C9 witness: the registry at a concrete known name and at a concrete
unknown name. -/
theorem C9_registry_lookup_witness :
    get_feature_factory testExt testNgramCfg
      = (mkNgram testExt testNgramCfg).map FactoryInst.ngram ∧
    get_feature_factory testExt unknownCfg
      = Except.error ("Unknown feature factory: " ++ "quux") :=
  ⟨C9_registry_lookup.2.2.2.2.2.2.1 testExt testNgramCfg rfl,
   C9_registry_lookup.2.2.2.2.2.2.2.2.2.2.2.2 testExt unknownCfg
     (by decide)⟩

/-- C4: evaluating any built `Feature` whose shifted index
`token_index + offset` falls outside `[0, len(tokens))` yields "no value"
(`some none`: a normal return of Python `None`, never a raised error — the
guard returns before the wrapped compute function is called); and the
n-gram and shape-n-gram compute functions themselves return "no value"
unless both `token_index` and `token_index + n` lie within bounds. -/
theorem C4_out_of_bounds_no_value :
    (∀ (f : Feature) (tokens : List Token) (tokenIndex : Nat),
      ¬(0 ≤ (tokenIndex : Int) + f.offset ∧
        (tokenIndex : Int) + f.offset < (tokens.length : Int)) →
      f.compute tokens tokenIndex = some none) ∧
    (∀ (E : Ext) (f : NgramFactory) (tokens : List Token) (tokenIndex : Nat),
      ¬((tokenIndex : Int) < (tokens.length : Int) ∧
        (tokenIndex : Int) + f.n ≤ (tokens.length : Int)) →
      ngramCompute E f tokens tokenIndex = some none) ∧
    (∀ (E : Ext) (f : ShapeNgramFactory) (tokens : List Token)
      (tokenIndex : Nat),
      ¬((tokenIndex : Int) < (tokens.length : Int) ∧
        (tokenIndex : Int) + f.n ≤ (tokens.length : Int)) →
      shapeNgramCompute E f tokens tokenIndex = some none) := by
  refine ⟨?_, ?_, ?_⟩
  · intro f tokens tokenIndex h
    simp only [Feature.compute]
    rw [if_neg h]
  · intro E f tokens tokenIndex h
    simp only [ngramCompute]
    rw [if_neg h]
  · intro E f tokens tokenIndex h
    simp only [shapeNgramCompute]
    rw [if_neg h]

/-- C4 witness: a feature with offset 5 evaluated at index 0 of a 2-token
sequence, and the two n-gram computes at an out-of-range window. -/
theorem C4_out_of_bounds_no_value_witness :
    Feature.compute
      { base_name := "is_digit", func := isDigitCompute, offset := 5,
        drop_out := 0 } testTokens 0 = some none ∧
    ngramCompute testExt testNgramFactory testTokens 5 = some none ∧
    shapeNgramCompute testExt testShapeFactory testTokens 5 = some none :=
  ⟨C4_out_of_bounds_no_value.1
     { base_name := "is_digit", func := isDigitCompute, offset := 5,
       drop_out := 0 } testTokens 0 (by decide),
   C4_out_of_bounds_no_value.2.1 testExt testNgramFactory testTokens 5
     (by decide),
   C4_out_of_bounds_no_value.2.2 testExt testShapeFactory testTokens 5
     (by decide)⟩

theorem take_one_drop (l : List Token) (i : Nat) (t : Token)
    (h : l.get? i = some t) : (l.drop i).take 1 = [t] := by
  induction l generalizing i with
  | nil => simp at h
  | cons hd tl ih =>
    cases i with
    | zero =>
      injection h with h'
      subst h'
      rfl
    | succ n => exact ih n h

/-- C8: for a fitted n-gram factory with `n = 1`, `use_stemming = false`
and no gazetteer resolved, `compute_feature` at any in-bounds index equals
the per-token normalization feature (the spec-side
`specPerTokenNormalization`). -/
theorem C8_unigram_is_normalization (E : Ext) (f : NgramFactory)
    (hn : f.n = 1) (hs : f.use_stemming = false) (hg : f.gazetteer = none)
    (tokens : List Token) (i : Nat) (hi : i < tokens.length) :
    ngramCompute E f tokens i = specPerTokenNormalization E tokens i := by
  have ht : tokens.get? i = some (tokens.get ⟨i, hi⟩) := List.get?_eq_get hi
  have hwin : (tokens.drop i).take 1 = [tokens.get ⟨i, hi⟩] :=
    take_one_drop _ _ _ ht
  simp only [ngramCompute, specPerTokenNormalization, hn, hs, hg, ht]
  rw [if_pos (by constructor <;> omega)]
  simp [hwin]
  rfl

/-- C8 witness: the unigram theorem at a concrete factory, token sequence
and index. -/
theorem C8_unigram_is_normalization_witness :
    ngramCompute testExt testNgramFactory testTokens 0
      = specPerTokenNormalization testExt testTokens 0 :=
  C8_unigram_is_normalization testExt testNgramFactory rfl rfl rfl
    testTokens 0 (by decide)

theorem entity_filter_eq_contains (ent : EntitySpan) (t : Token) :
    entity_filter ent t.start t.«end» = entityContains ent t := by
  simp only [entity_filter, entityContains]
  by_cases h1 : ent.rstart ≤ t.start <;> by_cases h2 : t.start < ent.rend <;>
    by_cases h3 : ent.rstart < t.«end» <;> by_cases h4 : t.«end» ≤ ent.rend <;>
    simp [h1, h2, h3, h4]

theorem entity_filter_iff (ent : EntitySpan) (s e : Nat) :
    entity_filter ent s e = true ↔
      (ent.rstart ≤ s ∧ s < ent.rend ∧ ent.rstart < e ∧ e ≤ ent.rend) := by
  simp [entity_filter, and_assoc]

/-- C1: in the custom entity-match evaluation, once a first overlapping
match `ent` is selected for the target token, the result is the
tagging-scheme prefix of `token_index` computed from exactly the indexes of
the transformed tokens whose spans fall fully inside `ent`'s character
range (`entityContains`: start and end both within the range — a token
merely overlapping the range does not qualify). -/
theorem C1_custom_match_contained_indexes (E : Ext) (f : EntityMatchFactory)
    (P : CustomParser) (entity : String) (tokens : List Token) (i : Nat)
    (tok : Token) (ent : EntitySpan) (rest : List EntitySpan)
    (htok : (tokens.map (emTransform E f)).get? i = some tok)
    (hfirst : ((P.parse (initial_string_from_tokens
        (tokens.map (emTransform E f))) [entity]).filter
        (fun e => entity_filter e tok.start tok.«end»)) = ent :: rest) :
    entityMatchFn E f P entity tokens i =
      some (some (schemePrefixOf i
        ((((tokens.map (emTransform E f)).enum).filter
          (fun p => entityContains ent p.2)).map Prod.fst)
        f.tagging_scheme)) := by
  simp only [entityMatchFn, htok, hfirst]
  rw [List.filter_congr (fun p _ => entity_filter_eq_contains ent p.2)]

/-- C1 witness: the theorem at a concrete factory, parser and token
sequence, where the match covers exactly the first token. -/
theorem C1_custom_match_contained_indexes_witness :
    entityMatchFn testExt testEntityMatchFactory testCustomParser "city"
        testTokens 0 =
      some (some (schemePrefixOf 0
        ((((testTokens.map (emTransform testExt testEntityMatchFactory)).enum).filter
          (fun p => entityContains { rstart := 0, rend := 5 } p.2)).map
          Prod.fst)
        testEntityMatchFactory.tagging_scheme)) :=
  C1_custom_match_contained_indexes testExt testEntityMatchFactory
    testCustomParser "city" testTokens 0
    { value := "hello", start := 0, «end» := 5 }
    { rstart := 0, rend := 5 } [] rfl rfl

/-- C2: in the builtin entity-match evaluation, the target token produces a
feature value exactly when some parsed match's character range fully
contains the token's span (start and end both within the range); a match
that only partially overlaps the target token never yields a value. -/
theorem C2_builtin_containment_decides (E : Ext)
    (f : BuiltinEntityMatchFactory) (P : BuiltinParser) (entity : String)
    (tokens : List Token) (i : Nat) (tok : Token)
    (htok : tokens.get? i = some tok) :
    (builtinEntityMatchFn E f P entity tokens i ≠ some none) ↔
    (∃ e ∈ P.parse (initial_string_from_tokens tokens) [entity],
      e.rstart ≤ tok.start ∧ tok.start < e.rend ∧
      e.rstart < tok.«end» ∧ tok.«end» ≤ e.rend) := by
  simp only [builtinEntityMatchFn, htok]
  cases hf : (P.parse (initial_string_from_tokens tokens) [entity]).filter
      (fun ent => entity_filter ent tok.start tok.«end») with
  | nil =>
    simp only [hf]
    constructor
    · intro h
      exact absurd rfl h
    · rintro ⟨e, he, hcont⟩
      have hmem : e ∈ (P.parse (initial_string_from_tokens tokens)
          [entity]).filter (fun ent => entity_filter ent tok.start tok.«end») :=
        List.mem_filter.mpr
          ⟨he, (entity_filter_iff e tok.start tok.«end»).mpr hcont⟩
      rw [hf] at hmem
      simp at hmem
  | cons e' rest =>
    simp only [hf]
    constructor
    · intro _
      have hmem : e' ∈ (P.parse (initial_string_from_tokens tokens)
          [entity]).filter (fun ent => entity_filter ent tok.start tok.«end») := by
        rw [hf]
        exact List.mem_cons_self e' rest
      have h2 := List.mem_filter.mp hmem
      exact ⟨e', h2.1, (entity_filter_iff e' tok.start tok.«end»).mp h2.2⟩
    · intro _
      simp

/-- C2 witness: the containment criterion at a concrete input — the parser
match `[0, 5)` fully contains the first test token. -/
theorem C2_builtin_containment_decides_witness :
    (builtinEntityMatchFn testExt testBuiltinFactory testBuiltinParser
        "snips/number" testTokens 0 ≠ some none) ↔
    (∃ e ∈ testBuiltinParser.parse (initial_string_from_tokens testTokens)
        ["snips/number"],
      e.rstart ≤ 0 ∧ 0 < e.rend ∧ e.rstart < 5 ∧ 5 ≤ e.rend) :=
  C2_builtin_containment_decides testExt testBuiltinFactory testBuiltinParser
    "snips/number" testTokens 0 { value := "hello", start := 0, «end» := 5 }
    rfl

/-- C3: in both entity-match evaluations, only the first match surviving
the target-token filter determines the feature value — replacing the
parser's whole result list by that single match leaves the value unchanged
— and when no returned match passes the filter the value is "no value"
(`None`). -/
theorem C3_first_match_short_circuit :
    (∀ (E : Ext) (f : EntityMatchFactory) (P : CustomParser)
      (entity : String) (tokens : List Token) (i : Nat) (tok : Token),
      (tokens.map (emTransform E f)).get? i = some tok →
      ((P.parse (initial_string_from_tokens
          (tokens.map (emTransform E f))) [entity]).filter
          (fun e => entity_filter e tok.start tok.«end»)) = [] →
      entityMatchFn E f P entity tokens i = some none) ∧
    (∀ (E : Ext) (f : EntityMatchFactory) (P : CustomParser)
      (entity : String) (tokens : List Token) (i : Nat) (tok : Token)
      (ent : EntitySpan) (rest : List EntitySpan),
      (tokens.map (emTransform E f)).get? i = some tok →
      ((P.parse (initial_string_from_tokens
          (tokens.map (emTransform E f))) [entity]).filter
          (fun e => entity_filter e tok.start tok.«end»)) = ent :: rest →
      entityMatchFn E f P entity tokens i
        = entityMatchFn E f
            { entities := P.entities, parse := fun _ _ => [ent] }
            entity tokens i) ∧
    (∀ (E : Ext) (f : BuiltinEntityMatchFactory) (P : BuiltinParser)
      (entity : String) (tokens : List Token) (i : Nat) (tok : Token),
      tokens.get? i = some tok →
      ((P.parse (initial_string_from_tokens tokens) [entity]).filter
          (fun e => entity_filter e tok.start tok.«end»)) = [] →
      builtinEntityMatchFn E f P entity tokens i = some none) ∧
    (∀ (E : Ext) (f : BuiltinEntityMatchFactory) (P : BuiltinParser)
      (entity : String) (tokens : List Token) (i : Nat) (tok : Token)
      (ent : EntitySpan) (rest : List EntitySpan),
      tokens.get? i = some tok →
      ((P.parse (initial_string_from_tokens tokens) [entity]).filter
          (fun e => entity_filter e tok.start tok.«end»)) = ent :: rest →
      builtinEntityMatchFn E f P entity tokens i
        = builtinEntityMatchFn E f { parse := fun _ _ => [ent] }
            entity tokens i) := by
  refine ⟨?_, ?_, ?_, ?_⟩
  · intro E f P entity tokens i tok htok hempty
    simp only [entityMatchFn, htok, hempty]
  · intro E f P entity tokens i tok ent rest htok hfirst
    have hmem : ent ∈ ((P.parse (initial_string_from_tokens
        (tokens.map (emTransform E f))) [entity]).filter
        (fun e => entity_filter e tok.start tok.«end»)) := by
      rw [hfirst]
      exact List.mem_cons_self ent rest
    have hpred := (List.mem_filter.mp hmem).2
    simp only [entityMatchFn, htok, hfirst]
    simp [hpred]
  · intro E f P entity tokens i tok htok hempty
    simp only [builtinEntityMatchFn, htok, hempty]
  · intro E f P entity tokens i tok ent rest htok hfirst
    have hmem : ent ∈ ((P.parse (initial_string_from_tokens tokens)
        [entity]).filter (fun e => entity_filter e tok.start tok.«end»)) := by
      rw [hfirst]
      exact List.mem_cons_self ent rest
    have hpred := (List.mem_filter.mp hmem).2
    simp only [builtinEntityMatchFn, htok, hfirst]
    simp [hpred]

/-- C3 witness: no surviving match yields `None` (custom, empty parser;
builtin, a match that only partially overlaps the target token), and with
two overlapping matches the value equals the one computed from the first
alone. -/
theorem C3_first_match_short_circuit_witness :
    entityMatchFn testExt testEntityMatchFactory emptyCustomParser "city"
        testTokens 0 = some none ∧
    builtinEntityMatchFn testExt testBuiltinFactory partialBuiltinParser
        "snips/number" testTokens 0 = some none ∧
    builtinEntityMatchFn testExt testBuiltinFactory twoMatchBuiltinParser
        "snips/number" testTokens 0
      = builtinEntityMatchFn testExt testBuiltinFactory
          { parse := fun _ _ => [{ rstart := 0, rend := 5 }] }
          "snips/number" testTokens 0 :=
  ⟨C3_first_match_short_circuit.1 testExt testEntityMatchFactory
     emptyCustomParser "city" testTokens 0
     { value := "hello", start := 0, «end» := 5 } rfl rfl,
   C3_first_match_short_circuit.2.2.1 testExt testBuiltinFactory
     partialBuiltinParser "snips/number" testTokens 0
     { value := "hello", start := 0, «end» := 5 } rfl rfl,
   C3_first_match_short_circuit.2.2.2 testExt testBuiltinFactory
     twoMatchBuiltinParser "snips/number" testTokens 0
     { value := "hello", start := 0, «end» := 5 }
     { rstart := 0, rend := 5 } [{ rstart := 0, rend := 11 }] rfl rfl⟩

theorem getIntArg_setArg_ne (a : List (String × Val)) (k k' : String) (v : Val)
    (h : k' ≠ k) : getIntArg (setArg a k v) k' = getIntArg a k' := by
  unfold getIntArg
  rw [argLookup_setArg_ne _ _ _ _ h]

theorem getBoolArg_setArg_ne (a : List (String × Val)) (k k' : String) (v : Val)
    (h : k' ≠ k) : getBoolArg (setArg a k v) k' = getBoolArg a k' := by
  unfold getBoolArg
  rw [argLookup_setArg_ne _ _ _ _ h]

theorem getStrOrNoneArg_setArg_ne (a : List (String × Val)) (k k' : String)
    (v : Val) (h : k' ≠ k) :
    getStrOrNoneArg (setArg a k v) k' = getStrOrNoneArg a k' := by
  unfold getStrOrNoneArg
  rw [argLookup_setArg_ne _ _ _ _ h]

theorem langOf_setLang (c : FactoryConfig) (l : String) :
    langOf (setLang c l).args = some l := by
  unfold langOf setLang
  simp [argLookup_setArg_self]

theorem setLang_idem (c : FactoryConfig) (l : String) :
    setLang (setLang c l) l = setLang c l := by
  unfold setLang
  simp [setArg_of_lookup_eq _ _ _
    (argLookup_setArg_self c.args "language_code" (Val.vstr l))]

theorem getIntArg_setLang_n (c : FactoryConfig) (l : String) :
    getIntArg (setLang c l).args "n" = getIntArg c.args "n" :=
  getIntArg_setArg_ne _ _ _ _ (by decide)

theorem getBoolArg_setLang_us (c : FactoryConfig) (l : String) :
    getBoolArg (setLang c l).args "use_stemming"
      = getBoolArg c.args "use_stemming" :=
  getBoolArg_setArg_ne _ _ _ _ (by decide)

theorem getStrOrNoneArg_setLang_gz (c : FactoryConfig) (l : String) :
    getStrOrNoneArg (setLang c l).args "common_words_gazetteer_name"
      = getStrOrNoneArg c.args "common_words_gazetteer_name" :=
  getStrOrNoneArg_setArg_ne _ _ _ _ (by decide)

theorem mkNgram_refit (E : Ext) (c : FactoryConfig) (f : NgramFactory)
    (d : Dataset) (hok : mkNgram E c = Except.ok f) :
    mkNgram E (ngramFit E f d).factory_config
      = Except.ok (ngramFit E f d) := by
  unfold mkNgram at hok
  split at hok
  · simp at hok
  · rename_i n hn
    split at hok
    · simp at hok
    · rename_i hge
      split at hok
      · simp at hok
      · rename_i us hus
        split at hok
        · simp at hok
        · rename_i gz hgz
          split at hok
          · rename_i l hl
            cases hok
            cases gz with
            | none =>
              unfold ngramFit
              simp only [ngramSetLanguage]
              unfold mkNgram
              simp only [getIntArg_setLang_n, hn, if_neg hge,
                         getBoolArg_setLang_us, hus,
                         getStrOrNoneArg_setLang_gz, hgz,
                         langOf_setLang]
              simp only [ngramSetLanguage, setLang_idem]
            | some name =>
              unfold ngramFit
              simp only [ngramSetLanguage]
              unfold mkNgram
              simp only [getIntArg_setLang_n, hn, if_neg hge,
                         getBoolArg_setLang_us, hus,
                         getStrOrNoneArg_setLang_gz, hgz,
                         langOf_setLang]
              simp only [ngramSetLanguage, setLang_idem]
          · rename_i hl
            cases hok
            cases gz with
            | none =>
              unfold ngramFit
              simp only [ngramSetLanguage]
              unfold mkNgram
              simp only [getIntArg_setLang_n, hn, if_neg hge,
                         getBoolArg_setLang_us, hus,
                         getStrOrNoneArg_setLang_gz, hgz,
                         langOf_setLang]
              simp only [ngramSetLanguage, setLang_idem]
            | some name =>
              unfold ngramFit
              simp only [ngramSetLanguage]
              unfold mkNgram
              simp only [getIntArg_setLang_n, hn, if_neg hge,
                         getBoolArg_setLang_us, hus,
                         getStrOrNoneArg_setLang_gz, hgz,
                         langOf_setLang]
              simp only [ngramSetLanguage, setLang_idem]


theorem getStrArg_setArg_ne (a : List (String × Val)) (k k' : String)
    (v : Val) (h : k' ≠ k) :
    getStrArg (setArg a k v) k' = getStrArg a k' := by
  unfold getStrArg
  rw [argLookup_setArg_ne _ _ _ _ h]

theorem getStrArg_setLang_cn (c : FactoryConfig) (l : String) :
    getStrArg (setLang c l).args "cluster_name"
      = getStrArg c.args "cluster_name" :=
  getStrArg_setArg_ne _ _ _ _ (by decide)

theorem getIntArg_setLang_tsc (c : FactoryConfig) (l : String) :
    getIntArg (setLang c l).args "tagging_scheme_code"
      = getIntArg c.args "tagging_scheme_code" :=
  getIntArg_setArg_ne _ _ _ _ (by decide)

theorem getIntArg_setArgEL_tsc (a : List (String × Val)) (v : Val) :
    getIntArg (setArg a "entity_labels" v) "tagging_scheme_code"
      = getIntArg a "tagging_scheme_code" :=
  getIntArg_setArg_ne _ _ _ _ (by decide)

theorem langOf_setArgEL (a : List (String × Val)) (v : Val) :
    langOf (setArg a "entity_labels" v) = langOf a := by
  unfold langOf
  rw [argLookup_setArg_ne _ _ _ _ (by decide)]

theorem entityLabelsOf_setArgEL (a : List (String × Val)) (ls : List String) :
    entityLabelsOf (setArg a "entity_labels" (Val.vlist ls)) = some ls := by
  unfold entityLabelsOf
  rw [argLookup_setArg_self]

theorem setLang_of_lookup (c : FactoryConfig) (l : String)
    (h : argLookup c.args "language_code" = some (Val.vstr l)) :
    setLang c l = c := by
  unfold setLang
  simp [setArg_of_lookup_eq _ _ _ h]

theorem mkShapeNgram_refit (c : FactoryConfig) (f : ShapeNgramFactory)
    (d : Dataset) (hok : mkShapeNgram c = Except.ok f) :
    mkShapeNgram (shapeNgramFit f d).factory_config
      = Except.ok (shapeNgramFit f d) := by
  unfold mkShapeNgram at hok
  split at hok
  · simp at hok
  · rename_i n hn
    split at hok
    · simp at hok
    · rename_i hge
      split at hok
      · rename_i l hl
        cases hok
        unfold shapeNgramFit
        simp only [shapeSetLanguage]
        unfold mkShapeNgram
        simp only [getIntArg_setLang_n, hn, if_neg hge, langOf_setLang]
        simp only [shapeSetLanguage, setLang_idem]
      · rename_i hl
        cases hok
        unfold shapeNgramFit
        simp only [shapeSetLanguage]
        unfold mkShapeNgram
        simp only [getIntArg_setLang_n, hn, if_neg hge, langOf_setLang]
        simp only [shapeSetLanguage, setLang_idem]

theorem mkWordCluster_refit (E : Ext) (c : FactoryConfig)
    (f : WordClusterFactory) (d : Dataset)
    (hok : mkWordCluster E c = Except.ok f) :
    mkWordCluster E (wordClusterFit E f d).factory_config
      = Except.ok (wordClusterFit E f d) := by
  unfold mkWordCluster at hok
  split at hok
  · simp at hok
  · rename_i cn hcn
    split at hok
    · simp at hok
    · rename_i us hus
      split at hok
      · rename_i l hl
        cases hok
        unfold wordClusterFit
        simp only [wordClusterSetLanguage]
        unfold mkWordCluster
        simp only [getStrArg_setLang_cn, hcn, getBoolArg_setLang_us, hus,
                   langOf_setLang]
        simp only [wordClusterSetLanguage, setLang_idem]
      · rename_i hl
        cases hok
        unfold wordClusterFit
        simp only [wordClusterSetLanguage]
        unfold mkWordCluster
        simp only [getStrArg_setLang_cn, hcn, getBoolArg_setLang_us, hus,
                   langOf_setLang]
        simp only [wordClusterSetLanguage, setLang_idem]

theorem mkEntityMatch_refit (c : FactoryConfig) (f : EntityMatchFactory)
    (d : Dataset) (hok : mkEntityMatch c = Except.ok f) :
    mkEntityMatch (entityMatchFit f d).factory_config
      = Except.ok (entityMatchFit f d) := by
  unfold mkEntityMatch at hok
  split at hok
  · simp at hok
  · rename_i us hus
    split at hok
    · simp at hok
    · rename_i code hcode
      split at hok
      · simp at hok
      · rename_i scheme hscheme
        split at hok
        · rename_i l hl
          cases hok
          unfold entityMatchFit
          simp only [emSetLanguage]
          unfold mkEntityMatch
          simp only [getBoolArg_setLang_us, hus, getIntArg_setLang_tsc, hcode,
                     hscheme, langOf_setLang]
          simp only [emSetLanguage, setLang_idem]
        · rename_i hl
          cases hok
          unfold entityMatchFit
          simp only [emSetLanguage]
          unfold mkEntityMatch
          simp only [getBoolArg_setLang_us, hus, getIntArg_setLang_tsc, hcode,
                     hscheme, langOf_setLang]
          simp only [emSetLanguage, setLang_idem]

theorem mkBuiltinEntityMatch_refit (E : Ext) (c : FactoryConfig)
    (f : BuiltinEntityMatchFactory) (d : Dataset) (intent : Option String)
    (hok : mkBuiltinEntityMatch c = Except.ok f) :
    mkBuiltinEntityMatch (builtinEntityMatchFit E f d intent).factory_config
      = Except.ok (builtinEntityMatchFit E f d intent) := by
  unfold mkBuiltinEntityMatch at hok
  split at hok
  · simp at hok
  · rename_i code hcode
    split at hok
    · simp at hok
    · rename_i scheme hscheme
      split at hok
      · rename_i l hl
        cases hok
        unfold builtinEntityMatchFit
        simp only [bemSetLanguage]
        unfold mkBuiltinEntityMatch
        simp only [getIntArg_setArgEL_tsc, getIntArg_setLang_tsc, hcode,
                   hscheme, langOf_setArgEL, langOf_setLang,
                   entityLabelsOf_setArgEL]
        simp only [bemSetLanguage]
        rw [setLang_of_lookup]
        rw [argLookup_setArg_ne _ _ _ _ (by decide)]
        unfold setLang
        exact argLookup_setArg_self _ _ _
      · rename_i hl
        cases hok
        unfold builtinEntityMatchFit
        simp only [bemSetLanguage]
        unfold mkBuiltinEntityMatch
        simp only [getIntArg_setArgEL_tsc, getIntArg_setLang_tsc, hcode,
                   hscheme, langOf_setArgEL, langOf_setLang,
                   entityLabelsOf_setArgEL]
        simp only [bemSetLanguage]
        rw [setLang_of_lookup]
        rw [argLookup_setArg_ne _ _ _ _ (by decide)]
        unfold setLang
        exact argLookup_setArg_self _ _ _


/-- C10: fitting a language-dependent factory writes its resolved bindings
back into the config's args mapping (`language_code`, plus `entity_labels`
for the builtin entity-match kind), so constructing a new factory from the
fitted factory's (mutated) config succeeds, yields exactly the fitted
factory's state (already bound, no fit needed), and building features from
it equals building them from the fitted original — for each of the five
language-dependent kinds. -/
theorem C10_mutated_config_rebinds :
    (∀ (E : Ext) (c : FactoryConfig) (f : NgramFactory) (d : Dataset),
      mkNgram E c = Except.ok f →
      mkNgram E (ngramFit E f d).factory_config
          = Except.ok (ngramFit E f d) ∧
      ∀ (BP : BuiltinParser) (CP : CustomParser),
        (mkNgram E (ngramFit E f d).factory_config).map
            (fun g => buildInst E (FactoryInst.ngram g) BP CP)
          = Except.ok
              (buildInst E (FactoryInst.ngram (ngramFit E f d)) BP CP)) ∧
    (∀ (E : Ext) (c : FactoryConfig) (f : ShapeNgramFactory) (d : Dataset),
      mkShapeNgram c = Except.ok f →
      mkShapeNgram (shapeNgramFit f d).factory_config
          = Except.ok (shapeNgramFit f d) ∧
      ∀ (BP : BuiltinParser) (CP : CustomParser),
        (mkShapeNgram (shapeNgramFit f d).factory_config).map
            (fun g => buildInst E (FactoryInst.shapeNgram g) BP CP)
          = Except.ok
              (buildInst E (FactoryInst.shapeNgram (shapeNgramFit f d))
                BP CP)) ∧
    (∀ (E : Ext) (c : FactoryConfig) (f : WordClusterFactory) (d : Dataset),
      mkWordCluster E c = Except.ok f →
      mkWordCluster E (wordClusterFit E f d).factory_config
          = Except.ok (wordClusterFit E f d) ∧
      ∀ (BP : BuiltinParser) (CP : CustomParser),
        (mkWordCluster E (wordClusterFit E f d).factory_config).map
            (fun g => buildInst E (FactoryInst.wordCluster g) BP CP)
          = Except.ok
              (buildInst E (FactoryInst.wordCluster (wordClusterFit E f d))
                BP CP)) ∧
    (∀ (E : Ext) (c : FactoryConfig) (f : EntityMatchFactory) (d : Dataset),
      mkEntityMatch c = Except.ok f →
      mkEntityMatch (entityMatchFit f d).factory_config
          = Except.ok (entityMatchFit f d) ∧
      ∀ (BP : BuiltinParser) (CP : CustomParser),
        (mkEntityMatch (entityMatchFit f d).factory_config).map
            (fun g => buildInst E (FactoryInst.entityM g) BP CP)
          = Except.ok
              (buildInst E (FactoryInst.entityM (entityMatchFit f d))
                BP CP)) ∧
    (∀ (E : Ext) (c : FactoryConfig) (f : BuiltinEntityMatchFactory)
      (d : Dataset) (intent : Option String),
      mkBuiltinEntityMatch c = Except.ok f →
      mkBuiltinEntityMatch
          (builtinEntityMatchFit E f d intent).factory_config
          = Except.ok (builtinEntityMatchFit E f d intent) ∧
      ∀ (BP : BuiltinParser) (CP : CustomParser),
        (mkBuiltinEntityMatch
            (builtinEntityMatchFit E f d intent).factory_config).map
            (fun g => buildInst E (FactoryInst.builtinM g) BP CP)
          = Except.ok
              (buildInst E
                (FactoryInst.builtinM (builtinEntityMatchFit E f d intent))
                BP CP)) := by
  refine ⟨?_, ?_, ?_, ?_, ?_⟩
  · intro E c f d hok
    have h := mkNgram_refit E c f d hok
    exact ⟨h, fun BP CP => by rw [h]; rfl⟩
  · intro E c f d hok
    have h := mkShapeNgram_refit c f d hok
    exact ⟨h, fun BP CP => by rw [h]; rfl⟩
  · intro E c f d hok
    have h := mkWordCluster_refit E c f d hok
    exact ⟨h, fun BP CP => by rw [h]; rfl⟩
  · intro E c f d hok
    have h := mkEntityMatch_refit c f d hok
    exact ⟨h, fun BP CP => by rw [h]; rfl⟩
  · intro E c f d intent hok
    have h := mkBuiltinEntityMatch_refit E c f d intent hok
    exact ⟨h, fun BP CP => by rw [h]; rfl⟩

/-- C10 witness: the n-gram and builtin entity-match parts at concrete
configs, dataset and parsers. -/
theorem C10_mutated_config_rebinds_witness :
    mkNgram testExt
        (ngramFit testExt testNgramFactory testDataset).factory_config
      = Except.ok (ngramFit testExt testNgramFactory testDataset) ∧
    (mkBuiltinEntityMatch
        (builtinEntityMatchFit testExt testBuiltinFactory testDataset
          none).factory_config).map
        (fun g => buildInst testExt (FactoryInst.builtinM g)
          testBuiltinParser testCustomParser)
      = Except.ok
          (buildInst testExt
            (FactoryInst.builtinM
              (builtinEntityMatchFit testExt testBuiltinFactory testDataset
                none))
            testBuiltinParser testCustomParser) :=
  ⟨(C10_mutated_config_rebinds.1 testExt testNgramCfg testNgramFactory
      testDataset rfl).1,
   (C10_mutated_config_rebinds.2.2.2.2 testExt testBuiltinCfg
      testBuiltinFactory testDataset none rfl).2 testBuiltinParser
      testCustomParser⟩


theorem length_le_one_nodup (l : List String) (h : l.length ≤ 1) :
    l.Nodup := by
  cases l with
  | nil => exact List.nodup_nil
  | cons x xs =>
    cases xs with
    | nil => simp
    | cons y ys => simp at h

theorem filter_eq_nil_or_singleton (offs : List Int) (o : Int)
    (ho : offs.Nodup) :
    offs.filter (fun x => decide (x = o)) = []
      ∨ offs.filter (fun x => decide (x = o)) = [o] := by
  induction offs with
  | nil => exact Or.inl rfl
  | cons hd tl ih =>
    obtain ⟨hmem, htl⟩ := List.nodup_cons.mp ho
    by_cases h : hd = o
    · subst h
      right
      have hnil : tl.filter (fun x => decide (x = hd)) = [] := by
        rw [List.filter_eq_nil_iff]
        intro x hx
        simp only [decide_eq_true_eq]
        intro heq
        exact hmem (heq ▸ hx)
      rw [List.filter_cons_of_pos (by simp), hnil]
    · rcases ih htl with h1 | h1
      · left
        rw [List.filter_cons_of_neg (by simp [h]), h1]
      · right
        rw [List.filter_cons_of_neg (by simp [h]), h1]

theorem filter_map_offset_length (G : Int → Feature) (offs : List Int)
    (o : Int) (hoff : ∀ off, (G off).offset = off) :
    ((offs.map G).filter (fun ft => decide (ft.offset = o))).length
      = (offs.filter (fun x => decide (x = o))).length := by
  induction offs with
  | nil => rfl
  | cons hd tl ih =>
    by_cases h : hd = o
    · rw [List.map_cons, List.filter_cons_of_pos (by simp [hoff, h]),
          List.filter_cons_of_pos (by simp [h])]
      simp [ih]
    · rw [List.map_cons, List.filter_cons_of_neg (by simp [hoff, h]),
          List.filter_cons_of_neg (by simp [h])]
      exact ih

theorem const_feature_names_nodup (G : Int → Feature) (offs : List Int)
    (o : Int) (hoff : ∀ off, (G off).offset = off) (ho : offs.Nodup) :
    (((offs.map G).filter (fun ft => decide (ft.offset = o))).map
      (fun ft => ft.base_name)).Nodup := by
  apply length_le_one_nodup
  rw [List.length_map, filter_map_offset_length G offs o hoff]
  rcases filter_eq_nil_or_singleton offs o ho with h1 | h1 <;> simp [h1]


theorem str_append_left_cancel (pre s t : String) (h : pre ++ s = pre ++ t) :
    s = t := by
  have hd : (pre ++ s).data = (pre ++ t).data := congrArg String.data h
  simp only [String.data_append] at hd
  have := List.append_cancel_left hd
  cases s
  cases t
  exact congrArg String.mk this

theorem entity_feature_mem_names (pre : String) (G : String → Int → Feature)
    (labels : List String) (offs : List Int) (o : Int)
    (hname : ∀ e off, (G e off).base_name = pre ++ e) (s : String)
    (hs : s ∈ ((labels.flatMap (fun e => offs.map (G e))).filter
      (fun ft => decide (ft.offset = o))).map (fun ft => ft.base_name)) :
    ∃ e ∈ labels, s = pre ++ e := by
  obtain ⟨ft, hft, hfts⟩ := List.mem_map.mp hs
  have hmem := (List.mem_filter.mp hft).1
  obtain ⟨e, he, hfe⟩ := List.mem_flatMap.mp hmem
  obtain ⟨off, _, hoff⟩ := List.mem_map.mp hfe
  exact ⟨e, he, by rw [← hfts, ← hoff, hname]⟩

theorem entity_feature_names_nodup (pre : String) (G : String → Int → Feature)
    (labels : List String) (offs : List Int) (o : Int)
    (hname : ∀ e off, (G e off).base_name = pre ++ e)
    (hoff : ∀ e off, (G e off).offset = off)
    (hl : labels.Nodup) (ho : offs.Nodup) :
    (((labels.flatMap (fun e => offs.map (G e))).filter
      (fun ft => decide (ft.offset = o))).map (fun ft => ft.base_name)).Nodup := by
  induction labels with
  | nil => simp
  | cons e ls ih =>
    obtain ⟨hmem, hls⟩ := List.nodup_cons.mp hl
    rw [List.flatMap_cons, List.filter_append, List.map_append]
    rw [List.nodup_append]
    refine ⟨const_feature_names_nodup (G e) offs o (hoff e) ho, ih hls, ?_⟩
    intro s hs1 hs2
    obtain ⟨ft, hft, hfts⟩ := List.mem_map.mp hs1
    have hmem1 := (List.mem_filter.mp hft).1
    obtain ⟨off, _, hfe⟩ := List.mem_map.mp hmem1
    have hse : s = pre ++ e := by rw [← hfts, ← hfe, hname]
    obtain ⟨e', he', hse'⟩ :=
      entity_feature_mem_names pre G ls offs o hname s hs2
    have : e = e' := str_append_left_cancel pre e e' (hse ▸ hse')
    exact hmem (this ▸ he')


/-- C7 counterexample: the claim "base names are unique across one
configuration's features" fails at a concrete successfully constructed and
fitted configuration: when the grammar-supported and dataset gazetteer
entity scopes share a label, the builtin entity-match scope (a plain list
concatenation, source line 549) contains it twice, and build_features emits
two features with identical base name at the same offset. -/
theorem C7_counterexample :
    mkBuiltinEntityMatch testBuiltinCfg = Except.ok testBuiltinFactory ∧
    (buildInst overlapExt
        (FactoryInst.builtinM
          (builtinEntityMatchFit overlapExt testBuiltinFactory testDataset
            none))
        testBuiltinParser testCustomParser).map
        (fun fs => (fs.filter (fun ft => decide (ft.offset = 0))).map
          (fun ft => ft.base_name))
      = Except.ok ["builtin_entity_match_snips/number",
                   "builtin_entity_match_snips/number"] ∧
    ¬ (["builtin_entity_match_snips/number",
        "builtin_entity_match_snips/number"] : List String).Nodup :=
  ⟨rfl, rfl, by decide⟩

/-- C7 (amended): provided the configuration's offsets are pairwise
distinct, the custom parser's entity label set has no duplicates, and (for
the builtin entity-match kind) the resolved entity-label scope list has no
duplicates — i.e. the concatenated grammar and dataset gazetteer label sets
are disjoint — the base names of the features built by any factory are
unique per offset. -/
theorem C7_feature_names_unique (E : Ext) (inst : FactoryInst) (BP : BuiltinParser)
    (CP : CustomParser) (fs : List Feature) (o : Int)
    (hoffs : (configOf inst).offsets.Nodup)
    (hcp : CP.entities.Nodup)
    (hbem : ∀ (g : BuiltinEntityMatchFactory) (ls : List String),
      inst = FactoryInst.builtinM g → g.builtin_entities = some ls →
      ls.Nodup)
    (hbuild : buildInst E inst BP CP = Except.ok fs) :
    ((fs.filter (fun ft => decide (ft.offset = o))).map
      (fun ft => ft.base_name)).Nodup := by
  cases inst with
  | isDigit c =>
    simp only [buildInst, Except.ok.injEq] at hbuild
    subst hbuild
    exact const_feature_names_nodup _ _ _ (fun _ => rfl) hoffs
  | isFirst c =>
    simp only [buildInst, Except.ok.injEq] at hbuild
    subst hbuild
    exact const_feature_names_nodup _ _ _ (fun _ => rfl) hoffs
  | isLast c =>
    simp only [buildInst, Except.ok.injEq] at hbuild
    subst hbuild
    exact const_feature_names_nodup _ _ _ (fun _ => rfl) hoffs
  | lengthFa c =>
    simp only [buildInst, Except.ok.injEq] at hbuild
    subst hbuild
    exact const_feature_names_nodup _ _ _ (fun _ => rfl) hoffs
  | ngram f =>
    simp only [buildInst, Except.ok.injEq] at hbuild
    subst hbuild
    exact const_feature_names_nodup _ _ _ (fun _ => rfl) hoffs
  | shapeNgram f =>
    simp only [buildInst, Except.ok.injEq] at hbuild
    subst hbuild
    exact const_feature_names_nodup _ _ _ (fun _ => rfl) hoffs
  | wordCluster f =>
    simp only [buildInst, Except.ok.injEq] at hbuild
    subst hbuild
    exact const_feature_names_nodup _ _ _ (fun _ => rfl) hoffs
  | prefixFa c =>
    simp only [buildInst] at hbuild
    split at hbuild
    · rename_i hoffsE
      simp only [Except.ok.injEq] at hbuild
      subst hbuild
      simp
    · split at hbuild
      · simp at hbuild
      · simp only [Except.ok.injEq] at hbuild
        subst hbuild
        exact const_feature_names_nodup _ _ _ (fun _ => rfl) hoffs
  | suffixFa c =>
    simp only [buildInst] at hbuild
    split at hbuild
    · rename_i hoffsE
      simp only [Except.ok.injEq] at hbuild
      subst hbuild
      simp
    · split at hbuild
      · simp at hbuild
      · simp only [Except.ok.injEq] at hbuild
        subst hbuild
        exact const_feature_names_nodup _ _ _ (fun _ => rfl) hoffs
  | entityM f =>
    simp only [buildInst, entityMatchBuild, Except.ok.injEq] at hbuild
    subst hbuild
    exact entity_feature_names_nodup "entity_match_" _ CP.entities
      f.factory_config.offsets o (fun _ _ => rfl) (fun _ _ => rfl) hcp hoffs
  | builtinM f =>
    simp only [buildInst, builtinEntityMatchBuild] at hbuild
    split at hbuild
    · simp at hbuild
    · rename_i ls hls
      simp only [Except.ok.injEq] at hbuild
      subst hbuild
      exact entity_feature_names_nodup "builtin_entity_match_" _ ls
        f.factory_config.offsets o (fun _ _ => rfl) (fun _ _ => rfl)
        (hbem f ls rfl hls) hoffs

/-- C7 witness: the amended theorem at a concrete fitted builtin
entity-match factory whose scope sources are disjoint. -/
theorem C7_feature_names_unique_witness :
    ((c7fs.filter (fun ft => decide (ft.offset = 0))).map
      (fun ft => ft.base_name)).Nodup :=
  C7_feature_names_unique testExt (FactoryInst.builtinM c7fitted) testBuiltinParser
    testCustomParser c7fs 0 (by decide) (by decide)
    (by
      intro g ls hg hls
      injection hg with h
      subst h
      have : ls = ["snips/number"] := by
        have h2 : c7fitted.builtin_entities = some ["snips/number"] := rfl
        rw [h2] at hls
        injection hls with h3
        exact h3.symm
      subst this
      decide)
    rfl


end SnipsNLU
